import Mathlib

/-!
Verification of the MACE platform/benchmark-harness slice.

The source under study is the benchmark host program
(mace/core/testing/test_benchmark_main.cc) and the Windows file-system
port declaration (mace/port/windows/file_system.h).  The host program is
embedded faithfully; operations whose implementations live outside the
visible slice (the two runtime-configuration calls, the benchmark runner
and the file-system factory body) are modelled from the specification,
as indicated in their doc comments.
-/

namespace Mace

/-- Status taxonomy. SUCCESS plus the error kinds named by the
specification (section 7): INVALID_ARGUMENT for bad runtime-configuration
inputs, and NOT_FOUND, PERMISSION_DENIED, IO_ERROR for the file-system
factory. -/
inductive MaceStatus where
  | SUCCESS
  | INVALID_ARGUMENT
  | NOT_FOUND
  | PERMISSION_DENIED
  | IO_ERROR
  deriving DecidableEq, Repr

/-- A file visible to the abstract host filesystem: whether the caller may
read it, and its byte content. -/
structure FileInfo where
  readable : Bool
  content : List Nat
  deriving DecidableEq, Repr

/-- A read-only memory region: an immutable view over file-backed bytes. -/
structure ReadOnlyMemoryRegion where
  bytes : List Nat
  deriving DecidableEq, Repr

/-- Accessor data() of a region: the (read-only) byte content. Total, so it
is defined on every constructed region, including a zero-length one. -/
def ReadOnlyMemoryRegion.data (r : ReadOnlyMemoryRegion) : List Nat :=
  r.bytes

/-- Accessor length() of a region. -/
def ReadOnlyMemoryRegion.length (r : ReadOnlyMemoryRegion) : Nat :=
  r.bytes.length

/-- Modelled from the spec: the body of
WindowsFileSystem::NewReadOnlyMemoryRegionFromFile is not under src/; only
its declaration (mace/port/windows/file_system.h, returning a MaceStatus
with the region in an out-parameter) is.  Following sections 4.2, 7 and 8
of the specification: a nonexistent path fails with NOT_FOUND, a path
lacking read permission fails with PERMISSION_DENIED, a mapping/allocation
failure fails with IO_ERROR, and otherwise the call succeeds with a region
holding the full file content at open time (a zero-byte file giving a
zero-length region).  The host filesystem is a map from path to file info
and mapping success is an explicit environment flag; the outcome is the
returned status, the region travelling separately as the second component,
mirroring the out-parameter. -/
def NewReadOnlyMemoryRegionFromFile (fs : String → Option FileInfo)
    (mapOk : Bool) (fname : String) :
    MaceStatus × Option ReadOnlyMemoryRegion :=
  match fs fname with
  | none => (MaceStatus.NOT_FOUND, none)
  | some fi =>
      if fi.readable then
        if mapOk then (MaceStatus.SUCCESS, some ⟨fi.content⟩)
        else (MaceStatus.IO_ERROR, none)
      else (MaceStatus.PERMISSION_DENIED, none)

/-- Modelled from the spec: mace::ConfigOpenCLRuntime is declared in
mace/public/mace.h, which is not under src/.  Section 4.3: both hints are
enumerations coded 0..3 (0:DEFAULT/1:LOW/2:NORMAL/3:HIGH per the flag help
text); an out-of-range enum code is an InvalidArgument error (section 7),
returned as a status value. -/
def ConfigOpenCLRuntime (perf_hint priority_hint : Int) : MaceStatus :=
  if 0 ≤ perf_hint ∧ perf_hint ≤ 3 ∧ 0 ≤ priority_hint ∧ priority_hint ≤ 3
  then MaceStatus.SUCCESS
  else MaceStatus.INVALID_ARGUMENT

/-- Modelled from the spec: mace::ConfigOmpThreadsAndAffinity is declared
in mace/public/mace.h, which is not under src/.  Section 4.3: threadCount
must be at least 1 (a request for 0 or negative is reported as an error,
not silently clamped) and the power option is an enumeration coded 0..2
(0:DEFAULT/1:HIGH_PERFORMANCE/2:BATTERY_SAVE); violations are
InvalidArgument, returned as a status value. -/
def ConfigOmpThreadsAndAffinity (omp_num_threads cpu_power_option : Int) :
    MaceStatus :=
  if 1 ≤ omp_num_threads ∧ 0 ≤ cpu_power_option ∧ cpu_power_option ≤ 2
  then MaceStatus.SUCCESS
  else MaceStatus.INVALID_ARGUMENT

/-- Per-benchmark outcome of a run: the benchmark completed its
measurement, or it failed with a captured error. -/
inductive BenchOutcome where
  | Completed
  | Failed (err : String)
  deriving DecidableEq, Repr

/-- A registered benchmark: its unique name and its routine, abstracted to
the result the routine produces when executed (normal completion or an
error it raises). -/
structure Benchmark where
  name : String
  routine : Except String Unit
  deriving Repr

/-- Modelled from the spec: benchmark selection (section 4.4) matches the
pattern against the full benchmark name, with the pattern "all" selecting
every registered benchmark; how other patterns match names is the
host-supplied matcher m. -/
def selects (m : String → String → Bool) (pattern name : String) : Bool :=
  if pattern = "all" then true else m pattern name

/-- Modelled from the spec: mace::testing::Benchmark::Run is declared in
mace/core/testing/test_benchmark.h, which is not under src/.  Sections 4.4
and 7: the runner iterates the selected benchmarks in registration order;
an error raised inside a routine aborts only that benchmark's measurement
and is recorded as Failed with the captured error; every outcome appears
in the returned summary, one entry per executed benchmark. -/
def Benchmark.Run (m : String → String → Bool) (registry : List Benchmark)
    (pattern : String) : List (String × BenchOutcome) :=
  (registry.filter fun b => selects m pattern b.name).map fun b =>
    (b.name,
      match b.routine with
      | Except.ok _ => BenchOutcome.Completed
      | Except.error e => BenchOutcome.Failed e)

/-- Command-line flags of the benchmark host, as declared by the
DEFINE_string/DEFINE_int32 lines of test_benchmark_main.cc. -/
structure Flags where
  pattern : String
  gpu_perf_hint : Int
  gpu_priority_hint : Int
  omp_num_threads : Int
  cpu_power_option : Int
  deriving DecidableEq, Repr

/-- Default flag values from test_benchmark_main.cc: pattern "all",
gpu_perf_hint 3, gpu_priority_hint 3, omp_num_threads 1,
cpu_power_option 1. -/
def defaultFlags : Flags :=
  { pattern := "all"
    gpu_perf_hint := 3
    gpu_priority_hint := 3
    omp_num_threads := 1
    cpu_power_option := 1 }

/-- Observable events of one execution of the host program, each recording
the arguments of the corresponding call and, for the configuration calls,
the status they returned. -/
inductive Event where
  | configOpenCL (perf_hint priority_hint : Int) (result : MaceStatus)
  | configOmp (num_threads power_option : Int) (result : MaceStatus)
  | runBenchmarks (pattern : String) (summary : List (String × BenchOutcome))
  deriving DecidableEq, Repr

/-- Discriminator for the GPU-configuration event. -/
def Event.isConfigOpenCL : Event → Bool
  | Event.configOpenCL _ _ _ => true
  | _ => false

/-- Discriminator for the CPU-pool-configuration event. -/
def Event.isConfigOmp : Event → Bool
  | Event.configOmp _ _ _ => true
  | _ => false

/-- Discriminator for the benchmark-runner event. -/
def Event.isRunBenchmarks : Event → Bool
  | Event.runBenchmarks _ _ => true
  | _ => false

/-- Result of one execution of the host program: the ordered trace of its
externally visible calls, and the process exit code. -/
structure MainResult where
  trace : List Event
  exitCode : Int
  deriving Repr

/-- The main function of test_benchmark_main.cc, embedded statement by
statement: it calls ConfigOpenCLRuntime with the two GPU-hint flags, then
ConfigOmpThreadsAndAffinity with the thread-count and power-option flags
(both returned statuses are bound but never inspected, exactly as in the
source, where the return values are discarded), then invokes
Benchmark::Run with the pattern flag, and returns 0.  The two
configuration implementations and the matcher are parameters because
their bodies live outside this translation unit. -/
def benchMain (cfgOpenCL : Int → Int → MaceStatus)
    (cfgOmp : Int → Int → MaceStatus) (m : String → String → Bool)
    (registry : List Benchmark) (f : Flags) : MainResult :=
  let s1 := cfgOpenCL f.gpu_perf_hint f.gpu_priority_hint
  let s2 := cfgOmp f.omp_num_threads f.cpu_power_option
  let summary := Benchmark.Run m registry f.pattern
  { trace :=
      [Event.configOpenCL f.gpu_perf_hint f.gpu_priority_hint s1,
       Event.configOmp f.omp_num_threads f.cpu_power_option s2,
       Event.runBenchmarks f.pattern summary]
    exitCode := 0 }

/-- True when the execution's trace contains a benchmark-runner event. -/
def containsRunEvent (r : MainResult) : Bool :=
  r.trace.any Event.isRunBenchmarks

/-- GPU performance hint enumeration from mace/public/mace.h (not under
src/), coded by the flag help text of test_benchmark_main.cc. -/
inductive GPUPerfHint where
  | PERF_DEFAULT
  | PERF_LOW
  | PERF_NORMAL
  | PERF_HIGH
  deriving DecidableEq, Repr

/-- GPU priority hint enumeration, coded 0:DEFAULT/1:LOW/2:NORMAL/3:HIGH. -/
inductive GPUPriorityHint where
  | PRIORITY_DEFAULT
  | PRIORITY_LOW
  | PRIORITY_NORMAL
  | PRIORITY_HIGH
  deriving DecidableEq, Repr

/-- CPU power option enumeration, coded
0:DEFAULT/1:HIGH_PERFORMANCE/2:BATTERY_SAVE. -/
inductive CPUPowerOption where
  | POWER_DEFAULT
  | HIGH_PERFORMANCE
  | BATTERY_SAVE
  deriving DecidableEq, Repr

/-- Integer decoding of GPUPerfHint per the help text
0:DEFAULT/1:LOW/2:NORMAL/3:HIGH. -/
def decodeGPUPerfHint (n : Int) : Option GPUPerfHint :=
  if n = 0 then some GPUPerfHint.PERF_DEFAULT
  else if n = 1 then some GPUPerfHint.PERF_LOW
  else if n = 2 then some GPUPerfHint.PERF_NORMAL
  else if n = 3 then some GPUPerfHint.PERF_HIGH
  else none

/-- Integer decoding of GPUPriorityHint per the help text
0:DEFAULT/1:LOW/2:NORMAL/3:HIGH. -/
def decodeGPUPriorityHint (n : Int) : Option GPUPriorityHint :=
  if n = 0 then some GPUPriorityHint.PRIORITY_DEFAULT
  else if n = 1 then some GPUPriorityHint.PRIORITY_LOW
  else if n = 2 then some GPUPriorityHint.PRIORITY_NORMAL
  else if n = 3 then some GPUPriorityHint.PRIORITY_HIGH
  else none

/-- Integer decoding of CPUPowerOption per the help text
0:DEFAULT/1:HIGH_PERFORMANCE/2:BATTERY_SAVE. -/
def decodeCPUPowerOption (n : Int) : Option CPUPowerOption :=
  if n = 0 then some CPUPowerOption.POWER_DEFAULT
  else if n = 1 then some CPUPowerOption.HIGH_PERFORMANCE
  else if n = 2 then some CPUPowerOption.BATTERY_SAVE
  else none

/-- C1: the benchmark host process returns exit status zero on normal
completion of the benchmark run, for every pattern and every mix of
per-benchmark outcomes; the per-benchmark results (failures included)
appear in the reported summary event, never in the exit code. -/
theorem c1_main_exit_zero (cfgOpenCL cfgOmp : Int → Int → MaceStatus)
    (m : String → String → Bool) (registry : List Benchmark) (f : Flags) :
    (benchMain cfgOpenCL cfgOmp m registry f).exitCode = 0 ∧
    Event.runBenchmarks f.pattern (Benchmark.Run m registry f.pattern) ∈
      (benchMain cfgOpenCL cfgOmp m registry f).trace := by
  refine ⟨rfl, ?_⟩
  simp [benchMain]

/-- C9: the harness main discards the results of both configuration
calls; whatever those calls report, the benchmark runner is invoked and
the process returns 0 — the exit code and the runner invocation (with its
summary) are identical under any two configuration implementations. -/
theorem c9_config_results_discarded
    (cfgOpenCL cfgOpenCL2 cfgOmp cfgOmp2 : Int → Int → MaceStatus)
    (m : String → String → Bool) (registry : List Benchmark) (f : Flags) :
    (benchMain cfgOpenCL cfgOmp m registry f).exitCode = 0 ∧
    containsRunEvent (benchMain cfgOpenCL cfgOmp m registry f) = true ∧
    (benchMain cfgOpenCL cfgOmp m registry f).exitCode =
      (benchMain cfgOpenCL2 cfgOmp2 m registry f).exitCode ∧
    (benchMain cfgOpenCL cfgOmp m registry f).trace.filter
        Event.isRunBenchmarks =
      (benchMain cfgOpenCL2 cfgOmp2 m registry f).trace.filter
        Event.isRunBenchmarks := by
  refine ⟨rfl, ?_, rfl, ?_⟩
  · simp [benchMain, containsRunEvent, Event.isRunBenchmarks]
  · simp [benchMain, Event.isRunBenchmarks]

/-- C10: with no command-line flags the host applies pattern "all",
gpu_perf_hint 3 decoding to HIGH, gpu_priority_hint 3 decoding to HIGH,
omp_num_threads 1, and cpu_power_option 1 decoding to HIGH_PERFORMANCE —
none of which is the backend-defined DEFAULT code. -/
theorem c10_flag_defaults :
    defaultFlags.pattern = "all" ∧
    defaultFlags.gpu_perf_hint = 3 ∧
    defaultFlags.gpu_priority_hint = 3 ∧
    defaultFlags.omp_num_threads = 1 ∧
    defaultFlags.cpu_power_option = 1 ∧
    decodeGPUPerfHint defaultFlags.gpu_perf_hint =
      some GPUPerfHint.PERF_HIGH ∧
    decodeGPUPriorityHint defaultFlags.gpu_priority_hint =
      some GPUPriorityHint.PRIORITY_HIGH ∧
    decodeCPUPowerOption defaultFlags.cpu_power_option =
      some CPUPowerOption.HIGH_PERFORMANCE ∧
    decodeGPUPerfHint defaultFlags.gpu_perf_hint ≠
      some GPUPerfHint.PERF_DEFAULT ∧
    decodeGPUPriorityHint defaultFlags.gpu_priority_hint ≠
      some GPUPriorityHint.PRIORITY_DEFAULT ∧
    decodeCPUPowerOption defaultFlags.cpu_power_option ≠
      some CPUPowerOption.POWER_DEFAULT := by
  decide

/-- C4: for every path (and every host filesystem and mapping outcome)
NewReadOnlyMemoryRegionFromFile communicates its outcome as the returned
status value, with the region travelling separately: the status equals
SUCCESS exactly when a region is delivered, so the immediate caller learns
success or failure from the status alone; being a total function of its
inputs, the operation has no other channel — no control-flow exception —
for an error. -/
theorem c4_status_communicates_outcome (fs : String → Option FileInfo)
    (mapOk : Bool) (fname : String) :
    ((NewReadOnlyMemoryRegionFromFile fs mapOk fname).1 =
        MaceStatus.SUCCESS ↔
      (NewReadOnlyMemoryRegionFromFile fs mapOk fname).2.isSome = true) := by
  unfold NewReadOnlyMemoryRegionFromFile
  cases h : fs fname with
  | none => simp
  | some fi =>
      by_cases hr : fi.readable <;> by_cases hm : mapOk <;>
        simp [hr, hm]

/-- C2 as stated is false on the code: with thread count 0 (an invalid
configuration input) the CPU-pool configuration call reports
INVALID_ARGUMENT, yet the host main still invokes the benchmark runner —
the error does not block startup and the benchmark run proceeds. -/
theorem c2_counterexample :
    ConfigOmpThreadsAndAffinity 0 1 = MaceStatus.INVALID_ARGUMENT ∧
    containsRunEvent
      (benchMain ConfigOpenCLRuntime ConfigOmpThreadsAndAffinity
        (fun _ _ => false) []
        { pattern := "all"
          gpu_perf_hint := 3
          gpu_priority_hint := 3
          omp_num_threads := 0
          cpu_power_option := 1 }) = true := by
  decide

/-- C2 amended: an invalid configuration value (thread count of 0 or
negative, or an out-of-range enum code) is reported as an InvalidArgument
error by the configuration operation, not silently clamped; however the
harness main discards those statuses, so the benchmark run proceeds
regardless — the error does not block startup. -/
theorem c2_amended_invalid_reported_not_blocking
    (omp_num_threads cpu_power_option perf_hint priority_hint : Int)
    (m : String → String → Bool) (registry : List Benchmark) (f : Flags) :
    ((omp_num_threads ≤ 0 ∨ cpu_power_option < 0 ∨ 2 < cpu_power_option) →
      ConfigOmpThreadsAndAffinity omp_num_threads cpu_power_option =
        MaceStatus.INVALID_ARGUMENT) ∧
    ((perf_hint < 0 ∨ 3 < perf_hint ∨ priority_hint < 0 ∨ 3 < priority_hint) →
      ConfigOpenCLRuntime perf_hint priority_hint =
        MaceStatus.INVALID_ARGUMENT) ∧
    containsRunEvent
      (benchMain ConfigOpenCLRuntime ConfigOmpThreadsAndAffinity
        m registry f) = true := by
  refine ⟨?_, ?_, ?_⟩
  · intro h
    unfold ConfigOmpThreadsAndAffinity
    rw [if_neg]
    rintro ⟨h1, h2, h3⟩
    rcases h with h | h | h <;> omega
  · intro h
    unfold ConfigOpenCLRuntime
    rw [if_neg]
    rintro ⟨h1, h2, h3, h4⟩
    rcases h with h | h | h | h <;> omega
  · simp [benchMain, containsRunEvent, Event.isRunBenchmarks]

/-- Witness for the amended C2, at thread count 0 with power option 1 and
GPU hint codes 7 and 0, over an empty registry with default remaining
flags. -/
theorem c2_amended_witness :
    ConfigOmpThreadsAndAffinity 0 1 = MaceStatus.INVALID_ARGUMENT ∧
    ConfigOpenCLRuntime 7 0 = MaceStatus.INVALID_ARGUMENT ∧
    containsRunEvent
      (benchMain ConfigOpenCLRuntime ConfigOmpThreadsAndAffinity
        (fun _ _ => false) [] defaultFlags) = true := by
  obtain ⟨h1, h2, h3⟩ :=
    c2_amended_invalid_reported_not_blocking 0 1 7 0
      (fun _ _ => false) [] defaultFlags
  exact ⟨h1 (by decide), h2 (by decide), h3⟩

/-- C3: in every execution of the host program, both Runtime
Configuration calls happen before the Benchmark Runner is invoked: any
trace position holding the benchmark-run event is preceded by positions
holding the GPU-hint configuration event and the CPU-pool configuration
event. -/
theorem c3_config_before_run (cfgOpenCL cfgOmp : Int → Int → MaceStatus)
    (m : String → String → Bool) (registry : List Benchmark) (f : Flags)
    (i : Nat) (ev : Event)
    (hev : (benchMain cfgOpenCL cfgOmp m registry f).trace.get? i = some ev)
    (hrun : ev.isRunBenchmarks = true) :
    ((benchMain cfgOpenCL cfgOmp m registry f).trace.take i).any
      Event.isConfigOpenCL = true ∧
    ((benchMain cfgOpenCL cfgOmp m registry f).trace.take i).any
      Event.isConfigOmp = true := by
  rcases i with _ | (_ | (_ | n))
  · simp [benchMain] at hev
    rw [← hev] at hrun
    simp [Event.isRunBenchmarks] at hrun
  · simp [benchMain] at hev
    rw [← hev] at hrun
    simp [Event.isRunBenchmarks] at hrun
  · constructor <;>
      simp [benchMain, Event.isConfigOpenCL, Event.isConfigOmp]
  · simp [benchMain] at hev

/-- Witness for C3: in a concrete execution the benchmark-run event sits
at position 2 and both configuration events occur among the first two
positions. -/
theorem c3_witness :
    ((benchMain (fun _ _ => MaceStatus.SUCCESS)
        (fun _ _ => MaceStatus.SUCCESS) (fun _ _ => false) []
        defaultFlags).trace.take 2).any Event.isConfigOpenCL = true ∧
    ((benchMain (fun _ _ => MaceStatus.SUCCESS)
        (fun _ _ => MaceStatus.SUCCESS) (fun _ _ => false) []
        defaultFlags).trace.take 2).any Event.isConfigOmp = true :=
  c3_config_before_run (fun _ _ => MaceStatus.SUCCESS)
    (fun _ _ => MaceStatus.SUCCESS) (fun _ _ => false) [] defaultFlags 2
    (Event.runBenchmarks "all" []) (by decide) (by decide)

/-- C5: a failing call to NewReadOnlyMemoryRegionFromFile reports exactly
one of three kinds — NOT_FOUND for a nonexistent path, PERMISSION_DENIED
for a path lacking read permission, IO_ERROR for a mapping failure — and
the kinds are pairwise distinct (and distinct from SUCCESS), so the caller
can inspect which one occurred. -/
theorem c5_error_kinds (fs : String → Option FileInfo) (mapOk : Bool)
    (fname : String) (fi : FileInfo) :
    (fs fname = none →
      NewReadOnlyMemoryRegionFromFile fs mapOk fname =
        (MaceStatus.NOT_FOUND, none)) ∧
    (fs fname = some fi → fi.readable = false →
      NewReadOnlyMemoryRegionFromFile fs mapOk fname =
        (MaceStatus.PERMISSION_DENIED, none)) ∧
    (fs fname = some fi → fi.readable = true → mapOk = false →
      NewReadOnlyMemoryRegionFromFile fs mapOk fname =
        (MaceStatus.IO_ERROR, none)) ∧
    (MaceStatus.NOT_FOUND ≠ MaceStatus.PERMISSION_DENIED ∧
      MaceStatus.NOT_FOUND ≠ MaceStatus.IO_ERROR ∧
      MaceStatus.PERMISSION_DENIED ≠ MaceStatus.IO_ERROR ∧
      MaceStatus.NOT_FOUND ≠ MaceStatus.SUCCESS ∧
      MaceStatus.PERMISSION_DENIED ≠ MaceStatus.SUCCESS ∧
      MaceStatus.IO_ERROR ≠ MaceStatus.SUCCESS) := by
  refine ⟨?_, ?_, ?_, by decide⟩
  · intro h
    unfold NewReadOnlyMemoryRegionFromFile
    rw [h]
  · intro h hr
    unfold NewReadOnlyMemoryRegionFromFile
    rw [h]
    simp [hr]
  · intro h hr hm
    unfold NewReadOnlyMemoryRegionFromFile
    rw [h]
    simp [hr, hm]

/-- Witness for C5: the three error kinds observed on three concrete
filesystems — a missing file, an unreadable file, and a readable file
whose mapping fails. -/
theorem c5_witness :
    NewReadOnlyMemoryRegionFromFile (fun _ => none) true "a.bin" =
      (MaceStatus.NOT_FOUND, none) ∧
    NewReadOnlyMemoryRegionFromFile
      (fun _ => some { readable := false, content := [7] }) true "b.bin" =
      (MaceStatus.PERMISSION_DENIED, none) ∧
    NewReadOnlyMemoryRegionFromFile
      (fun _ => some { readable := true, content := [7] }) false "c.bin" =
      (MaceStatus.IO_ERROR, none) :=
  ⟨(c5_error_kinds (fun _ => none) true "a.bin"
      { readable := true, content := [] }).1 rfl,
   (c5_error_kinds (fun _ => some { readable := false, content := [7] })
      true "b.bin" { readable := false, content := [7] }).2.1 rfl rfl,
   (c5_error_kinds (fun _ => some { readable := true, content := [7] })
      false "c.bin" { readable := true, content := [7] }).2.2.1 rfl rfl rfl⟩

/-- C7: a path referencing an existing, readable file of size zero
succeeds and yields a region whose length() is 0 and whose data() is
defined (the empty byte view), not an error. -/
theorem c7_zero_byte_file (fs : String → Option FileInfo) (fname : String)
    (fi : FileInfo) (hfs : fs fname = some fi) (hread : fi.readable = true)
    (hempty : fi.content = []) :
    ∃ r, NewReadOnlyMemoryRegionFromFile fs true fname =
        (MaceStatus.SUCCESS, some r) ∧
      r.length = 0 ∧ r.data = [] := by
  refine ⟨⟨[]⟩, ?_, rfl, rfl⟩
  unfold NewReadOnlyMemoryRegionFromFile
  rw [hfs]
  simp [hread, hempty]

/-- Witness for C7: a concrete filesystem holding one empty readable
file. -/
theorem c7_witness :
    ∃ r, NewReadOnlyMemoryRegionFromFile
        (fun _ => some { readable := true, content := [] }) true
        "empty.bin" = (MaceStatus.SUCCESS, some r) ∧
      r.length = 0 ∧ r.data = [] :=
  c7_zero_byte_file (fun _ => some { readable := true, content := [] })
    "empty.bin" { readable := true, content := [] } rfl rfl rfl

/-- C6: with unique registered names, running with the pattern "all"
runs every registered benchmark exactly once in registration order; a
pattern matching zero names runs nothing and reports an empty summary;
any pattern runs exactly the matching subset, in original registration
order, each selected benchmark exactly once. -/
theorem c6_pattern_selection (m : String → String → Bool)
    (registry : List Benchmark) (pattern : String)
    (hnodup : (registry.map Benchmark.name).Nodup) :
    (Benchmark.Run m registry "all").map Prod.fst =
      registry.map Benchmark.name ∧
    ((∀ b ∈ registry, selects m pattern b.name = false) →
      Benchmark.Run m registry pattern = []) ∧
    (Benchmark.Run m registry pattern).map Prod.fst =
      (registry.filter fun b => selects m pattern b.name).map
        Benchmark.name ∧
    (∀ b ∈ registry, selects m pattern b.name = true →
      ((Benchmark.Run m registry pattern).map Prod.fst).count b.name
        = 1) := by
  have key : ∀ p : String, (Benchmark.Run m registry p).map Prod.fst =
      (registry.filter fun b => selects m p b.name).map Benchmark.name := by
    intro p
    unfold Benchmark.Run
    rw [List.map_map]
    rfl
  refine ⟨?_, ?_, key pattern, ?_⟩
  · rw [key "all"]
    have hall : (registry.filter fun b => selects m "all" b.name)
        = registry := by
      apply List.filter_eq_self.mpr
      intro b _
      simp [selects]
    rw [hall]
  · intro h
    unfold Benchmark.Run
    rw [List.filter_eq_nil_iff.mpr]
    · rfl
    · intro b hb
      simp [h b hb]
  · intro b hb hsel
    rw [key pattern]
    have hsub : ((registry.filter fun x => selects m pattern x.name).map
        Benchmark.name).Nodup :=
      List.Sublist.nodup (List.Sublist.map Benchmark.name
        (List.filter_sublist registry)) hnodup
    have hmem : b.name ∈ (registry.filter fun x =>
        selects m pattern x.name).map Benchmark.name :=
      List.mem_map.mpr ⟨b, List.mem_filter.mpr ⟨hb, hsel⟩, rfl⟩
    exact List.count_eq_one_of_mem hsub hmem

/-- Witness for C6: a two-benchmark registry with names A and B, an
exact-name matcher, pattern "all" running both in order, pattern "ZZZ"
matching nothing, and pattern "B" running exactly B once. -/
theorem c6_witness :
    (Benchmark.Run (fun p n => p = n)
        [{ name := "A", routine := Except.ok () },
         { name := "B", routine := Except.error "boom" }] "all").map
      Prod.fst = ["A", "B"] ∧
    Benchmark.Run (fun p n => p = n)
      [{ name := "A", routine := Except.ok () },
       { name := "B", routine := Except.error "boom" }] "ZZZ" = [] ∧
    (Benchmark.Run (fun p n => p = n)
        [{ name := "A", routine := Except.ok () },
         { name := "B", routine := Except.error "boom" }] "B").map
      Prod.fst = ["B"] ∧
    ((Benchmark.Run (fun p n => p = n)
        [{ name := "A", routine := Except.ok () },
         { name := "B", routine := Except.error "boom" }] "B").map
      Prod.fst).count "B" = 1 := by
  obtain ⟨h1, -, -, -⟩ := c6_pattern_selection (fun p n => p = n)
    [{ name := "A", routine := Except.ok () },
     { name := "B", routine := Except.error "boom" }] "all" (by decide)
  obtain ⟨-, h2, -, -⟩ := c6_pattern_selection (fun p n => p = n)
    [{ name := "A", routine := Except.ok () },
     { name := "B", routine := Except.error "boom" }] "ZZZ" (by decide)
  obtain ⟨-, -, h3, h4⟩ := c6_pattern_selection (fun p n => p = n)
    [{ name := "A", routine := Except.ok () },
     { name := "B", routine := Except.error "boom" }] "B" (by decide)
  refine ⟨h1, h2 (by decide), ?_, ?_⟩
  · rw [h3]
    decide
  · exact h4 { name := "B", routine := Except.error "boom" }
      (List.mem_cons_of_mem _ (List.mem_cons_self _ _)) (by decide)

/-- C8: a benchmark whose routine raises an error has its run recorded as
Failed with the captured error, and every other selected benchmark still
receives a recorded outcome in the same summary — the runner is never
terminated by a benchmark failure. -/
theorem c8_benchmark_isolation (m : String → String → Bool)
    (registry : List Benchmark) (pattern : String) (b : Benchmark)
    (e : String) (hb : b ∈ registry)
    (hsel : selects m pattern b.name = true)
    (herr : b.routine = Except.error e) :
    (b.name, BenchOutcome.Failed e) ∈ Benchmark.Run m registry pattern ∧
    ∀ c ∈ registry, selects m pattern c.name = true →
      ∃ o, (c.name, o) ∈ Benchmark.Run m registry pattern := by
  constructor
  · unfold Benchmark.Run
    apply List.mem_map.mpr
    refine ⟨b, List.mem_filter.mpr ⟨hb, hsel⟩, ?_⟩
    rw [herr]
  · intro c hc hcsel
    refine ⟨match c.routine with
      | Except.ok _ => BenchOutcome.Completed
      | Except.error err => BenchOutcome.Failed err, ?_⟩
    exact List.mem_map.mpr ⟨c, List.mem_filter.mpr ⟨hc, hcsel⟩, rfl⟩

/-- Witness for C8: in a three-benchmark registry where B fails, the
summary of a run over the whole registry records B as Failed and still
holds an outcome for C. -/
theorem c8_witness :
    ("B", BenchOutcome.Failed "boom") ∈
      Benchmark.Run (fun _ _ => false)
        [{ name := "A", routine := Except.ok () },
         { name := "B", routine := Except.error "boom" },
         { name := "C", routine := Except.ok () }] "all" ∧
    ∃ o, (("C" : String), o) ∈
      Benchmark.Run (fun _ _ => false)
        [{ name := "A", routine := Except.ok () },
         { name := "B", routine := Except.error "boom" },
         { name := "C", routine := Except.ok () }] "all" :=
  have h := c8_benchmark_isolation (fun _ _ => false)
    [{ name := "A", routine := Except.ok () },
     { name := "B", routine := Except.error "boom" },
     { name := "C", routine := Except.ok () }] "all"
    { name := "B", routine := Except.error "boom" } "boom"
    (List.mem_cons_of_mem _ (List.mem_cons_self _ _)) (by decide) rfl
  ⟨h.1, h.2 { name := "C", routine := Except.ok () }
    (List.mem_cons_of_mem _ (List.mem_cons_of_mem _
      (List.mem_cons_self _ _))) (by decide)⟩

end Mace
